import Mathlib

/-!
Verification of the achievement-viewer reconciliation core.

The JavaScript sources are embedded shallowly: JS field values that may be
booleans, numbers, strings, null or undefined are modelled by `JSVal`;
JS truthiness and the `a || b` fallback operator are modelled by `truthy`
and `jsOr`; JS objects used as keyed maps are modelled by association
lists in insertion order (`for key in obj` iterates insertion order).
All functions are total and computable, so concrete runs of the embedded
code can be checked by `decide`.
-/

/-- A JavaScript value as it appears in the achievement JSON payloads:
undefined, null, a boolean, an integer number, or a string. -/
inductive JSVal where
  | vUndef : JSVal
  | vNull : JSVal
  | vBool : Bool → JSVal
  | vNum : Int → JSVal
  | vStr : String → JSVal
deriving DecidableEq, Repr

/-- JS truthiness: undefined, null, false, 0 and the empty string are falsy,
everything else is truthy. -/
def truthy : JSVal → Bool
  | .vUndef => false
  | .vNull => false
  | .vBool b => b
  | .vNum n => n != 0
  | .vStr s => s != ""

/-- The JS expression `a || b`: the value of `a` when `a` is truthy,
otherwise the value of `b`. -/
def jsOr (a b : JSVal) : JSVal :=
  if truthy a then a else b

/-- One entry of a save-data mapping (`achData[key]`), carrying every field
any of the fallback chains in `processGameData` consults. A field the JSON
does not supply is `vUndef`. -/
structure UserAch where
  earned : JSVal := .vUndef
  unlocked : JSVal := .vUndef
  achieved : JSVal := .vUndef
  earned_time : JSVal := .vUndef
  unlock_time : JSVal := .vUndef
  unlocktime : JSVal := .vUndef
  name : JSVal := .vUndef
  displayName : JSVal := .vUndef
  description : JSVal := .vUndef
  desc : JSVal := .vUndef
  hidden : JSVal := .vUndef
  icon : JSVal := .vUndef
  icongray : JSVal := .vUndef
  icon_gray : JSVal := .vUndef
  percent : JSVal := .vUndef
deriving DecidableEq, Repr

/-- One entry of a schema (`gameInfo.achievements[key]`). -/
structure AchInfo where
  name : JSVal := .vUndef
  description : JSVal := .vUndef
  hidden : JSVal := .vUndef
  icon : JSVal := .vUndef
  icongray : JSVal := .vUndef
  percent : JSVal := .vUndef
deriving DecidableEq, Repr

/-- Lookup `obj[key]` in a JS object modelled as an association list;
`none` models `undefined`. -/
def objLookup (m : List (String × α)) (k : String) : Option α :=
  match m with
  | [] => none
  | (k₀, v) :: rest => if k₀ = k then some v else objLookup rest k

/-- The assignment `obj[key] = v` on a JS object: an existing key keeps its
position and gets the new value, a new key is appended. -/
def objInsert (m : List (String × α)) (k : String) (v : α) : List (String × α) :=
  match m with
  | [] => [(k, v)]
  | (k₀, v₀) :: rest =>
      if k₀ = k then (k, v) :: rest else (k₀, v₀) :: objInsert rest k v

/-- The `achievementsData` argument of `processGameData`: either an object
with a truthy `achievements` field (so `achievementsData.achievements ||
achievementsData` picks the nested map) or the keyed mapping itself. -/
inductive AchievementsData where
  | nested : List (String × UserAch) → AchievementsData
  | flat : List (String × UserAch) → AchievementsData
deriving DecidableEq, Repr

/-- The JS line `let achData = achievementsData.achievements || achievementsData`. -/
def achDataOf : AchievementsData → List (String × UserAch)
  | .nested m => m
  | .flat m => m

/-- `game-info.json` as consumed by `processGameData`: `achievements` is
`some` when the field is present (a truthy object, possibly with no keys),
`blacklist` is `some` when the field is present. -/
structure GameInfo where
  name : JSVal := .vUndef
  icon : JSVal := .vUndef
  uses_db : JSVal := .vUndef
  platform : JSVal := .vUndef
  blacklist : Option (List String) := none
  achievements : Option (List (String × AchInfo)) := none
deriving DecidableEq, Repr

/-- One roster achievement as pushed by `processGameData`. -/
structure Achievement where
  apiname : String
  name : JSVal
  description : JSVal
  hidden : JSVal
  icon : JSVal
  icongray : JSVal
  unlocked : JSVal
  unlocktime : JSVal
  rarity : JSVal
deriving DecidableEq, Repr

/-- The earned-flag fallback chain of `processGameData`:
`ach.earned || ach.unlocked || ach.achieved || false`. -/
def normUnlocked (u : UserAch) : JSVal :=
  jsOr (jsOr (jsOr u.earned u.unlocked) u.achieved) (.vBool false)

/-- The unlock-time fallback chain of `processGameData`:
`ach.earned_time || ach.unlock_time || ach.unlocktime || 0`. -/
def normUnlocktime (u : UserAch) : JSVal :=
  jsOr (jsOr (jsOr u.earned_time u.unlock_time) u.unlocktime) (.vNum 0)

/-- The object pushed in the schema branch of `processGameData` for a
schema key `key` with schema entry `achInfo` and save entry
`userAch = achData[key]` (`none` when the key is absent from save data). -/
def mkSchemaAch (key : String) (achInfo : AchInfo) (userAch : Option UserAch) : Achievement :=
  { apiname := key
    name := jsOr achInfo.name (.vStr key)
    description := jsOr achInfo.description (.vStr "")
    hidden := jsOr achInfo.hidden (.vBool false)
    icon := jsOr achInfo.icon (.vStr "")
    icongray := jsOr (jsOr achInfo.icongray achInfo.icon) (.vStr "")
    unlocked := match userAch with
      | some u => normUnlocked u
      | none => .vBool false
    unlocktime := match userAch with
      | some u => normUnlocktime u
      | none => .vNum 0
    rarity := jsOr achInfo.percent .vNull }

/-- The object pushed in the save-only branch of `processGameData` for a
save key `key` with entry `ach = achData[key]`. -/
def mkSaveAch (key : String) (ach : UserAch) : Achievement :=
  { apiname := key
    name := jsOr (jsOr ach.name ach.displayName) (.vStr key)
    description := jsOr (jsOr ach.description ach.desc) (.vStr "")
    hidden := jsOr ach.hidden (.vBool false)
    icon := jsOr ach.icon (.vStr "")
    icongray := jsOr (jsOr ach.icongray ach.icon_gray) (jsOr ach.icon (.vStr ""))
    unlocked := normUnlocked ach
    unlocktime := normUnlocktime ach
    rarity := jsOr ach.percent .vNull }

/-- The schema branch loop of `processGameData`: iterate the schema keys in
insertion order, skip blacklisted keys, push `mkSchemaAch`. -/
def buildFromSchema (schema : List (String × AchInfo))
    (achData : List (String × UserAch)) (blacklist : List String) : List Achievement :=
  match schema with
  | [] => []
  | (key, achInfo) :: rest =>
      if blacklist.contains key then buildFromSchema rest achData blacklist
      else mkSchemaAch key achInfo (objLookup achData key) :: buildFromSchema rest achData blacklist

/-- The save-only branch loop of `processGameData`: iterate the save keys in
insertion order, skip blacklisted keys, push `mkSaveAch`. -/
def buildFromSave (achData : List (String × UserAch)) (blacklist : List String) : List Achievement :=
  match achData with
  | [] => []
  | (key, ach) :: rest =>
      if blacklist.contains key then buildFromSave rest blacklist
      else mkSaveAch key ach :: buildFromSave rest blacklist

/-- A processed game as stored into `gamesData`. -/
structure Game where
  appId : String
  name : JSVal
  icon : JSVal
  achievements : List Achievement
  usesDb : JSVal
  platform : JSVal
deriving DecidableEq, Repr

/-- `processGameData` (GameLoader variant with blacklist filtering): builds
the roster from the schema when `gameInfo` is present with a truthy
`achievements` field, otherwise from the save mapping alone, skipping
blacklisted keys in both branches. -/
def processGameData (appId : String) (achievementsData : AchievementsData)
    (gameInfo : Option GameInfo) : Game :=
  let blacklist : List String :=
    match gameInfo with
    | some gi => gi.blacklist.getD []
    | none => []
  let achData := achDataOf achievementsData
  let achievements :=
    match gameInfo with
    | some gi =>
        match gi.achievements with
        | some schema => buildFromSchema schema achData blacklist
        | none => buildFromSave achData blacklist
    | none => buildFromSave achData blacklist
  { appId := appId
    name := jsOr (match gameInfo with | some gi => gi.name | none => .vUndef)
      (.vStr ("Game " ++ appId))
    icon := jsOr (match gameInfo with | some gi => gi.icon | none => .vUndef) (.vStr "")
    achievements := achievements
    usesDb := jsOr (match gameInfo with | some gi => gi.uses_db | none => .vUndef) (.vBool false)
    platform := jsOr (match gameInfo with | some gi => gi.platform | none => .vUndef) .vNull }

/-- The per-game unlocked count of `displayGames` and `renderGamesGrid`:
`game.achievements.filter(a => a.unlocked).length` (JS truthiness filter). -/
def gameUnlockedCount (g : Game) : Nat :=
  (g.achievements.filter (fun a => truthy a.unlocked)).length

/-- The perfect-game test inlined in the `displayGames` loop:
`game.achievements.length > 0 && unlocked === game.achievements.length`. -/
def displayGamesIsPerfect (g : Game) : Bool :=
  decide (0 < g.achievements.length) && decide (gameUnlockedCount g = g.achievements.length)

/-- The `perfectGames` counter accumulated by the `displayGames` loop. -/
def displayGamesPerfectGames (games : List Game) : Nat :=
  games.countP displayGamesIsPerfect

/-- One element of an array-shaped save file, as consulted by the
array-to-dict conversion in `loadOwnGameData` and `loadGamesFromAppIds`. -/
structure SaveArrayEntry where
  apiname : JSVal := .vUndef
  achieved : JSVal := .vUndef
  unlocktime : JSVal := .vUndef
deriving DecidableEq, Repr

/-- The array-to-dict conversion of `loadOwnGameData`: entries with a truthy
string `apiname` are stored as `converted[ach.apiname] = (earned :=
ach.achieved === 1, earned_time := ach.unlocktime || 0)`; other entries are
dropped. -/
def convertArraySave (l : List SaveArrayEntry) : List (String × UserAch) :=
  match l with
  | [] => []
  | ach :: rest =>
      match ach.apiname with
      | .vStr s =>
          if s = "" then convertArraySave rest
          else
            objInsert (convertArraySave rest) s
              { earned := .vBool (ach.achieved = .vNum 1)
                earned_time := jsOr ach.unlocktime (.vNum 0) }
      | _ => convertArraySave rest

/-- The `ownData` result of a successful `loadOwnGameData`: the (converted)
visitor save mapping and the visitor blacklist `gameInfo?.blacklist || []`. -/
structure OwnData where
  achievementsData : List (String × UserAch)
  blacklist : List String
deriving DecidableEq, Repr

/-- One record pushed by `compareAchievements`: the spread of the owner
achievement plus `status`, `yourUnlockTime` and `theirUnlockTime`. -/
structure ComparisonRecord where
  ach : Achievement
  status : String
  yourUnlockTime : JSVal
  theirUnlockTime : JSVal
deriving DecidableEq, Repr

/-- The return value of `compareAchievements`. -/
structure ComparisonResult where
  hasData : Bool
  comparison : List ComparisonRecord
deriving DecidableEq, Repr

/-- The status derivation of `compareAchievements` from the pair
`(theyHave, youHave)`. -/
def statusOf (theyHave youHave : Bool) : String :=
  if theyHave && youHave then "both-unlocked"
  else if theyHave && !youHave then "they-only"
  else if !theyHave && youHave then "you-only"
  else "both-locked"

/-- The record `compareAchievements` builds for one non-blacklisted owner
achievement: `theyHave` is `achievement.unlocked === true || achievement.unlocked
=== 1`, `youHave` reads the visitor entry the same way (absence means false),
and the two unlock times are copied through `|| 0` fallbacks. -/
def mkComparisonRecord (ownAchievements : List (String × UserAch))
    (achievement : Achievement) : ComparisonRecord :=
  let ownAch := objLookup ownAchievements achievement.apiname
  let theyHave : Bool :=
    decide (achievement.unlocked = .vBool true) || decide (achievement.unlocked = .vNum 1)
  let youHave : Bool := match ownAch with
    | some o => decide (o.earned = .vBool true) || decide (o.earned = .vNum 1)
    | none => false
  { ach := achievement
    status := statusOf theyHave youHave
    yourUnlockTime := match ownAch with
      | some o => jsOr (jsOr (jsOr o.earned_time o.unlock_time) o.unlocktime) (.vNum 0)
      | none => .vNum 0
    theirUnlockTime := jsOr achievement.unlocktime (.vNum 0) }

/-- `compareAchievements(theirGame, ownData)`: `null` visitor data
short-circuits to `(hasData := false, comparison := [])`; otherwise every
owner achievement whose key is not in the visitor blacklist produces one
record, in roster order. -/
def compareAchievements (theirGame : Game) (ownData : Option OwnData) : ComparisonResult :=
  match ownData with
  | none => { hasData := false, comparison := [] }
  | some own =>
      { hasData := true
        comparison := theirGame.achievements.filterMap (fun achievement =>
          if own.blacklist.contains achievement.apiname then none
          else some (mkComparisonRecord own.achievementsData achievement)) }

/-- The statistics object of `getComparisonStats`. -/
structure ComparisonStats where
  bothUnlocked : Nat
  youOnly : Nat
  theyOnly : Nat
  bothLocked : Nat
  yourTotal : Nat
  theirTotal : Nat
  total : Nat
deriving DecidableEq, Repr

/-- `getComparisonStats(comparison)`: per-status filter lengths plus the
derived totals. -/
def getComparisonStats (comparison : List ComparisonRecord) : ComparisonStats :=
  let bothUnlocked := (comparison.filter (fun a => a.status = "both-unlocked")).length
  let youOnly := (comparison.filter (fun a => a.status = "you-only")).length
  let theyOnly := (comparison.filter (fun a => a.status = "they-only")).length
  let bothLocked := (comparison.filter (fun a => a.status = "both-locked")).length
  { bothUnlocked := bothUnlocked
    youOnly := youOnly
    theyOnly := theyOnly
    bothLocked := bothLocked
    yourTotal := bothUnlocked + youOnly
    theirTotal := bothUnlocked + theyOnly
    total := comparison.length }

/-- Round the nonnegative rational `n / d` (with `d > 0`) to the nearest
integer, ties to even — the significand rounding of IEEE-754
round-to-nearest-even. -/
def roundMantissaNearestEven (n d : Nat) : Nat :=
  let f := n / d
  let r := n % d
  if 2 * r < d then f
  else if d < 2 * r then f + 1
  else if f % 2 = 0 then f else f + 1

/-- Fuel-driven binary-exponent search: normalizes the positive rational
`n / d` into `[1, 2)` by doublings, returning the exponent `e` with
`2 ^ e ≤ n / d < 2 ^ (e + 1)`. -/
def dblExpAux : Nat → Nat → Nat → Int → Int
  | 0, _, _, acc => acc
  | fuel + 1, n, d, acc =>
      if n < d then dblExpAux fuel (2 * n) d (acc - 1)
      else if 2 * d ≤ n then dblExpAux fuel n (2 * d) (acc + 1)
      else acc

/-- The binary exponent of the positive rational `n / d` (`n + d` doublings
always suffice as fuel). -/
def dblExp (n d : Nat) : Int := dblExpAux (n + d) n d 0

/-- IEEE-754 binary64 rounding of the nonnegative rational `n / d`
(`d > 0`): round to nearest with a 53-bit significand, ties to even,
returned as an exact numerator/denominator pair. Overflow to infinity and
the subnormal range are not modelled; they are unreachable at the
magnitudes any theorem here evaluates. -/
def toDouble (n d : Nat) : Nat × Nat :=
  if n = 0 then (0, 1)
  else
    let e : Int := dblExp n d
    let s : Int := 52 - e
    let m : Nat :=
      if 0 ≤ s then roundMantissaNearestEven (n * 2 ^ s.toNat) d
      else roundMantissaNearestEven n (d * 2 ^ (-s).toNat)
    if 0 ≤ s then (m, 2 ^ s.toNat) else (m * 2 ^ (-s).toNat, 1)

/-- The JS number holding the natural `u`: the binary64 value of `u`
(exact below `2 ^ 53`). -/
def jsNum (u : Nat) : Nat × Nat := toDouble u 1

/-- IEEE-754 binary64 division: the correctly rounded exact quotient. -/
def jsDiv (a b : Nat × Nat) : Nat × Nat := toDouble (a.1 * b.2) (a.2 * b.1)

/-- IEEE-754 binary64 multiplication: the correctly rounded exact product. -/
def jsMul (a b : Nat × Nat) : Nat × Nat := toDouble (a.1 * b.1) (a.2 * b.2)

/-- `Math.round` on a nonnegative binary64 value `a.1 / a.2`: the nearest
integer, ties toward positive infinity, computed exactly on the value. -/
def jsRound (a : Nat × Nat) : Nat := (2 * a.1 + a.2) / (2 * a.2)

/-- `calculatePercentage(unlocked, total)` from utils:
`total > 0 ? Math.round((unlocked / total) * 100) : 0`, with JS number
arithmetic embedded as IEEE-754 binary64: the operands are converted to
doubles, the division and the multiplication by 100 each round to nearest
(ties to even), and `Math.round` rounds the resulting value half-up. -/
def calculatePercentage (unlocked total : Nat) : Nat :=
  if 0 < total then jsRound (jsMul (jsDiv (jsNum unlocked) (jsNum total)) (jsNum 100)) else 0

/-- Exact half-up rounding of `100 * u / t` for `t > 0`, as integer
arithmetic: the reference value `round(100 * u / t)` of the specification. -/
def exactRound (u t : Nat) : Nat := (200 * u + t) / (2 * t)

/-- The decision of `renderAchievement` to emit the unlock-time element:
`isUnlocked && ach.unlocktime`. -/
def showsUnlockTime (ach : Achievement) (isUnlocked : Bool) : Bool :=
  isUnlocked && truthy ach.unlocktime

/-- The per-game object read by the hub `loadGameData`: the save mapping
`g.achievements` and the optional `g.info` with its optional schema and
blacklist. -/
structure HubInfo where
  blacklist : Option (List String) := none
  achievements : Option (List (String × AchInfo)) := none
deriving DecidableEq, Repr

/-- One game of a hub `game-data.json`. -/
structure HubGame where
  info : Option HubInfo := none
  achievements : List (String × UserAch) := []
deriving DecidableEq, Repr

/-- `g.info?.blacklist || []` in the hub loop. -/
def hubBlacklist (g : HubGame) : List String :=
  match g.info with
  | some i => i.blacklist.getD []
  | none => []

/-- `hasFullSchema`: `g.info && g.info.achievements &&
Object.keys(g.info.achievements).length > 0`. -/
def hubHasFullSchema (g : HubGame) : Bool :=
  match g.info with
  | some i =>
      match i.achievements with
      | some schema => decide (0 < schema.length)
      | none => false
  | none => false

/-- The strict earned test of the hub loop:
`userAch && (userAch.earned === true || userAch.earned === 1)`. -/
def hubEarnedEntry (u : Option UserAch) : Bool :=
  match u with
  | some ach => decide (ach.earned = .vBool true) || decide (ach.earned = .vNum 1)
  | none => false

/-- The body of the hub loop for one game: `(totalCount, earnedCount,
canDeterminePerfect)`. The schema branch counts the non-blacklisted schema
keys and which of them have a strictly-earned save entry and sets
`canDeterminePerfect = true`; the save-only branch counts the save keys and
sets `canDeterminePerfect = false`. -/
def hubGameStats (g : HubGame) : Nat × Nat × Bool :=
  if hubHasFullSchema g then
    match g.info with
    | some i =>
        match i.achievements with
        | some schema =>
            let validSchemaKeys :=
              (schema.map (fun p => p.1)).filter (fun key => !(hubBlacklist g).contains key)
            (validSchemaKeys.length,
             validSchemaKeys.countP (fun key => hubEarnedEntry (objLookup g.achievements key)),
             true)
        | none => (0, 0, true)
    | none => (0, 0, true)
  else
    (g.achievements.length,
     g.achievements.countP (fun p => hubEarnedEntry (some p.2)),
     false)

/-- The perfect increment of the hub loop:
`canDeterminePerfect && totalCount > 0 && earnedCount === totalCount`. -/
def hubGamePerfect (g : HubGame) : Bool :=
  (hubGameStats g).2.2 && decide (0 < (hubGameStats g).1)
    && decide ((hubGameStats g).2.1 = (hubGameStats g).1)

/-- The `perfect` counter accumulated over a hub `game-data.json`. -/
def hubPerfectGames (data : List HubGame) : Nat :=
  data.countP hubGamePerfect

/-- The mutable state the comparison module keeps across events: the stored
visitor identity (localStorage `comparison_github_username`) and the
module-level `comparisonCache` map; a cached `none` records a failed fetch. -/
structure CompareState where
  storedUsername : Option String
  comparisonCache : List (String × Option OwnData)
deriving DecidableEq, Repr

/-- The template string used as cache key in `loadOwnGameData`. -/
def mkCacheKey (username appId : String) : String :=
  username ++ "_" ++ appId

/-- `checkPassport`: a truthy `vs` URL parameter overwrites the stored
identity; the cache is not touched. -/
def checkPassportStep (s : CompareState) (passportUser : Option String) : CompareState :=
  match passportUser with
  | some u => if u = "" then s else { s with storedUsername := some u }
  | none => s

/-- `changeComparisonUser`: a completed selection stores the chosen identity
(inside `selectComparisonUser`) and then clears the whole cache; a cancelled
selection changes nothing. -/
def changeComparisonUserStep (s : CompareState) (selected : Option String) : CompareState :=
  match selected with
  | some u => { storedUsername := some u, comparisonCache := [] }
  | none => s

/-- `loadOwnGameData(appId)` as a state transition: no stored identity
returns `null` at once; otherwise the cache is consulted under the key of
the current identity, and on a miss the fetch outcome `fetched` (with
`none` for a failed fetch) is stored and returned. -/
def loadOwnGameDataStep (s : CompareState) (appId : String) (fetched : Option OwnData) :
    Option OwnData × CompareState :=
  match s.storedUsername with
  | none => (none, s)
  | some u =>
      let key := mkCacheKey u appId
      match objLookup s.comparisonCache key with
      | some v => (v, s)
      | none => (fetched, { s with comparisonCache := objInsert s.comparisonCache key fetched })

/-- The JS comparison `x > 0` for the values that reach the unlock-time
fields: numbers compare directly, `true` coerces to `1`; undefined, null
and non-numeric values do not exceed zero. -/
def jsGtZero : JSVal → Bool
  | .vNum n => decide (0 < n)
  | .vBool b => b
  | _ => false

/-- The decision of `renderComparisonAchievement` to emit the
`Them: <date>` element: `ach.theirUnlockTime > 0`. -/
def showsTheirTime (r : ComparisonRecord) : Bool :=
  jsGtZero r.theirUnlockTime

/-- Scenario input: owner achievement A, unlocked at time 10. -/
def achC5A : Achievement :=
  { apiname := "A", name := .vStr "A", description := .vStr "", hidden := .vBool false,
    icon := .vStr "", icongray := .vStr "", unlocked := .vBool true,
    unlocktime := .vNum 10, rarity := .vNull }

/-- Scenario input: owner achievement B, locked. -/
def achC5B : Achievement :=
  { apiname := "B", name := .vStr "B", description := .vStr "", hidden := .vBool false,
    icon := .vStr "", icongray := .vStr "", unlocked := .vBool false,
    unlocktime := .vNum 0, rarity := .vNull }

/-- Scenario input: owner achievement C, unlocked at time 20. -/
def achC5C : Achievement :=
  { apiname := "C", name := .vStr "C", description := .vStr "", hidden := .vBool false,
    icon := .vStr "", icongray := .vStr "", unlocked := .vBool true,
    unlocktime := .vNum 20, rarity := .vNull }

/-- Scenario input: the owner roster with achievements A, B, C. -/
def gameC5 : Game :=
  { appId := "5", name := .vStr "g", icon := .vStr "",
    achievements := [achC5A, achC5B, achC5C], usesDb := .vBool false, platform := .vNull }

/-- Scenario input: the visitor save with only A earned and no blacklist. -/
def ownC5 : OwnData :=
  { achievementsData := [("A", { earned := .vBool true })], blacklist := [] }

/-- Counterexample input: a roster built by `processGameData` with no
`game-info.json` at all (so no authoritative schema), holding one earned
save entry. -/
def gameC1 : Game :=
  processGameData "10" (.flat [("a", { earned := .vBool true })]) none

/-- Concrete input for the C2 witness. -/
def userC2 : UserAch := { earned := .vBool false, unlocked := .vBool true }

/-- Concrete input for the C2 witness. -/
def entryC2 : SaveArrayEntry := { apiname := .vStr "a", achieved := .vNum 1 }

/-- Counterexample input: an owner achievement that is locked but whose
save entry stored unlock time 500. -/
def achC3 : Achievement :=
  { apiname := "x", name := .vStr "x", description := .vStr "", hidden := .vBool false,
    icon := .vStr "", icongray := .vStr "", unlocked := .vBool false,
    unlocktime := .vNum 500, rarity := .vNull }

/-- Counterexample input: the owner roster holding only `achC3`. -/
def gameC3 : Game :=
  { appId := "3", name := .vStr "g", icon := .vStr "",
    achievements := [achC3], usesDb := .vBool false, platform := .vNull }

/-- Counterexample input: a visitor with data present but nothing earned. -/
def ownC3 : OwnData := { achievementsData := [], blacklist := [] }

/-- Scenario input: a schema of 10 achievements a1 .. a10. -/
def schemaC7 : List (String × AchInfo) :=
  (List.range 10).map (fun i => ("a" ++ toString (i + 1), ({} : AchInfo)))

/-- Scenario input: save data with 5 earned achievements, one of them (a9)
blacklisted. -/
def saveC7 : List (String × UserAch) :=
  [("a1", { earned := .vBool true }), ("a2", { earned := .vBool true }),
   ("a3", { earned := .vBool true }), ("a4", { earned := .vBool true }),
   ("a9", { earned := .vBool true })]

/-- Scenario input: game info carrying the schema and the exclusion list
with a9 and a10. -/
def infoC7 : GameInfo := { blacklist := some ["a9", "a10"], achievements := some schemaC7 }

/-- Scenario input: the roster built by `processGameData` for C7. -/
def gameC7 : Game := processGameData "7" (.flat saveC7) (some infoC7)

/-- Counterexample input: a visitor payload cached for identity alice. -/
def ownC9 : OwnData :=
  { achievementsData := [("A", { earned := .vBool true })], blacklist := [] }

/-- Counterexample input: state with stored identity alice and a non-empty
comparison cache. -/
def stateC9 : CompareState :=
  { storedUsername := some "alice", comparisonCache := [(mkCacheKey "alice" "10", some ownC9)] }

/-- General shape of the `compareAchievements` loop: a filterMap whose
body skips via `continue` is the map of the body over the unskipped
elements. -/
theorem filterMap_skip_eq_map_filter {α β : Type} (p : α → Bool) (f : α → β) (l : List α) :
    (l.filterMap (fun a => if p a then none else some (f a)))
      = (l.filter (fun a => !p a)).map f := by
  induction l with
  | nil => rfl
  | cons a t ih => cases hpa : p a <;> simp [List.filterMap_cons, List.filter_cons, hpa, ih]

/-- The record list of `compareAchievements` is the blacklist-filtered owner
roster, mapped through the record constructor, in roster order. -/
theorem comparison_eq_filter_map (g : Game) (own : OwnData) :
    (compareAchievements g (some own)).comparison
      = (g.achievements.filter (fun a => !own.blacklist.contains a.apiname)).map
          (mkComparisonRecord own.achievementsData) := by
  simp only [compareAchievements]
  exact filterMap_skip_eq_map_filter _ _ _

/-- `statusOf` always lands in the four status strings. -/
theorem statusOf_cases (t y : Bool) :
    statusOf t y = "both-unlocked" ∨ statusOf t y = "you-only"
      ∨ statusOf t y = "they-only" ∨ statusOf t y = "both-locked" := by
  cases t <;> cases y <;> simp [statusOf]

/-- Every record produced by `compareAchievements` carries one of the four
status strings. -/
theorem status_mem_of_mem {g : Game} {own : OwnData} {r : ComparisonRecord}
    (hr : r ∈ (compareAchievements g (some own)).comparison) :
    r.status = "both-unlocked" ∨ r.status = "you-only"
      ∨ r.status = "they-only" ∨ r.status = "both-locked" := by
  rw [comparison_eq_filter_map] at hr
  rcases List.mem_map.mp hr with ⟨a, _, rfl⟩
  exact statusOf_cases _ _

/-- Counting each of the four statuses partitions a record list in which
every status is one of the four. -/
theorem four_status_count (l : List ComparisonRecord)
    (h : ∀ r ∈ l, r.status = "both-unlocked" ∨ r.status = "you-only"
      ∨ r.status = "they-only" ∨ r.status = "both-locked") :
    (l.filter (fun a => a.status = "both-unlocked")).length
      + (l.filter (fun a => a.status = "you-only")).length
      + (l.filter (fun a => a.status = "they-only")).length
      + (l.filter (fun a => a.status = "both-locked")).length = l.length := by
  induction l with
  | nil => rfl
  | cons r t ih =>
      have hr := h r (List.mem_cons_self r t)
      have iht := ih (fun x hx => h x (List.mem_cons_of_mem r hx))
      have e1 : ("both-unlocked" : String) ≠ "you-only" := by decide
      have e2 : ("both-unlocked" : String) ≠ "they-only" := by decide
      have e3 : ("both-unlocked" : String) ≠ "both-locked" := by decide
      have e4 : ("you-only" : String) ≠ "they-only" := by decide
      have e5 : ("you-only" : String) ≠ "both-locked" := by decide
      have e6 : ("they-only" : String) ≠ "both-locked" := by decide
      rcases hr with h1 | h1 | h1 | h1 <;>
        simp [List.filter_cons, h1, e1, e2, e3, e4, e5, e6, e1.symm, e2.symm, e3.symm,
          e4.symm, e5.symm, e6.symm] <;> omega

/-- The `canDeterminePerfect` component of the hub loop body agrees with
`hasFullSchema`: it is set exactly by taking the schema branch. -/
theorem hubGameStats_canDetermine (g : HubGame) : (hubGameStats g).2.2 = hubHasFullSchema g := by
  unfold hubGameStats
  cases hfs : hubHasFullSchema g
  · simp [hfs]
  · simp only [hfs, if_true]
    cases hi : g.info with
    | none => rfl
    | some i => cases hia : i.achievements <;> simp [hia]

/-- C5: for the owner roster A unlocked, B locked, C unlocked and the
visitor save with only A earned (C absent), reconciliation classifies A as
both-unlocked, B as both-locked, C as they-only, and the aggregates are
ownerTotal (`theirTotal`) = 2, visitorTotal (`yourTotal`) = 1, total = 3. -/
theorem C5_reconciliation_scenario :
    (compareAchievements gameC5 (some ownC5)).comparison.map (fun r => (r.ach.apiname, r.status))
      = [("A", "both-unlocked"), ("B", "both-locked"), ("C", "they-only")]
    ∧ (getComparisonStats (compareAchievements gameC5 (some ownC5)).comparison).theirTotal = 2
    ∧ (getComparisonStats (compareAchievements gameC5 (some ownC5)).comparison).yourTotal = 1
    ∧ (getComparisonStats (compareAchievements gameC5 (some ownC5)).comparison).total = 3 := by
  decide

/-- C4: every record produced by a reconciliation run carries exactly one of
the four statuses (the status is a single string out of four pairwise
distinct ones), and the four per-status counts of `getComparisonStats` sum
to `total`, the number of records produced. -/
theorem C4_status_partition (g : Game) (own : Option OwnData) :
    (∀ r ∈ (compareAchievements g own).comparison,
      r.status = "both-unlocked" ∨ r.status = "you-only"
        ∨ r.status = "they-only" ∨ r.status = "both-locked")
    ∧ (getComparisonStats (compareAchievements g own).comparison).bothUnlocked
        + (getComparisonStats (compareAchievements g own).comparison).youOnly
        + (getComparisonStats (compareAchievements g own).comparison).theyOnly
        + (getComparisonStats (compareAchievements g own).comparison).bothLocked
      = (getComparisonStats (compareAchievements g own).comparison).total := by
  cases own with
  | none =>
      constructor
      · intro r hr
        simp [compareAchievements] at hr
      · rfl
  | some own =>
      refine ⟨fun r hr => status_mem_of_mem hr, ?_⟩
      simp only [getComparisonStats]
      exact four_status_count _ (fun r hr => status_mem_of_mem hr)

/-- Witness for C4 at the concrete C5 scenario. -/
theorem C4_status_partition_witness :
    ((mkComparisonRecord ownC5.achievementsData achC5A).status = "both-unlocked"
      ∨ (mkComparisonRecord ownC5.achievementsData achC5A).status = "you-only"
      ∨ (mkComparisonRecord ownC5.achievementsData achC5A).status = "they-only"
      ∨ (mkComparisonRecord ownC5.achievementsData achC5A).status = "both-locked")
    ∧ (getComparisonStats (compareAchievements gameC5 (some ownC5)).comparison).bothUnlocked
        + (getComparisonStats (compareAchievements gameC5 (some ownC5)).comparison).youOnly
        + (getComparisonStats (compareAchievements gameC5 (some ownC5)).comparison).theyOnly
        + (getComparisonStats (compareAchievements gameC5 (some ownC5)).comparison).bothLocked
      = (getComparisonStats (compareAchievements gameC5 (some ownC5)).comparison).total := by
  have h := C4_status_partition gameC5 (some ownC5)
  exact ⟨h.1 (mkComparisonRecord ownC5.achievementsData achC5A) (by decide), h.2⟩

/-- C6: a missing visitor payload (`ownData = null`) short-circuits to
`hasData = false` with an empty record sequence, whatever the owner roster
holds; a present payload always yields `hasData = true`. -/
theorem C6_no_data_short_circuit :
    (∀ g : Game, compareAchievements g none = { hasData := false, comparison := [] })
    ∧ (∀ (g : Game) (own : OwnData), (compareAchievements g (some own)).hasData = true) :=
  ⟨fun _ => rfl, fun _ _ => rfl⟩

/-- C10: the record list of a reconciliation run is exactly the owner
roster, in roster order, minus the achievements whose key is in the
visitor blacklist, each mapped to its comparison record (the spread of the
original achievement plus status and the two unlock-time fields); the
embedded achievements are the original ones unchanged — the embedding is a
pure function, so the input roster itself is never mutated. -/
theorem C10_order_preservation (g : Game) (own : OwnData) :
    (compareAchievements g (some own)).comparison
      = (g.achievements.filter (fun a => !own.blacklist.contains a.apiname)).map
          (mkComparisonRecord own.achievementsData)
    ∧ (compareAchievements g (some own)).comparison.map (fun r => r.ach)
      = g.achievements.filter (fun a => !own.blacklist.contains a.apiname) := by
  refine ⟨comparison_eq_filter_map g own, ?_⟩
  rw [comparison_eq_filter_map, List.map_map]
  have hfg : ((fun r : ComparisonRecord => r.ach) ∘ mkComparisonRecord own.achievementsData)
      = id := rfl
  rw [hfg, List.map_id]

/-- C1 counterexample: the profile summary (`displayGames`) flags a roster
built without any schema as perfect — its perfect-game test is only
`achievements.length > 0 && unlocked === achievements.length` — so
`isPerfect` does not require a complete authoritative schema there. -/
theorem C1_no_schema_roster_counted_perfect :
    displayGamesIsPerfect gameC1 = true ∧ displayGamesPerfectGames [gameC1] = 1 := by
  decide

/-- C1 amended: only the hub aggregation (`loadGameData` in HubRenderer)
gates the perfect flag on a complete schema — there a game counts as
perfect iff `hasFullSchema` holds and `totalCount > 0` and
`earnedCount = totalCount`; the profile summary (`displayGames`) counts a
game perfect iff `totalCount > 0` and `unlockedCount = totalCount`,
regardless of schema availability. -/
theorem C1_perfect_flag_amended :
    (∀ g : HubGame, hubGamePerfect g = true ↔
      hubHasFullSchema g = true ∧ 0 < (hubGameStats g).1
        ∧ (hubGameStats g).2.1 = (hubGameStats g).1)
    ∧ (∀ gm : Game, displayGamesIsPerfect gm = true ↔
      0 < gm.achievements.length ∧ gameUnlockedCount gm = gm.achievements.length) := by
  constructor
  · intro g
    have h3 := hubGameStats_canDetermine g
    simp [hubGamePerfect, h3, and_assoc]
  · intro gm
    simp [displayGamesIsPerfect]

/-- C2 counterexample: in `processGameData` the entry with `earned: false,
unlocked: true` normalizes to unlocked (the falsy higher-priority field
does not decide; the chain falls through to the first truthy value), and
in the array-save converter of `loadOwnGameData` the strict `achieved === 1`
test makes `achieved: true` normalize to not-earned while `achieved: 1`
normalizes to earned. -/
theorem C2_falsy_field_does_not_decide :
    ((processGameData "1"
        (.flat [("a", { earned := .vBool false, unlocked := .vBool true })]) none).achievements.map
      (fun a => a.unlocked)) = [.vBool true]
    ∧ (objLookup (convertArraySave [{ apiname := .vStr "a", achieved := .vBool true }]) "a").map
        (fun u => u.earned) = some (.vBool false)
    ∧ (objLookup (convertArraySave [{ apiname := .vStr "a", achieved := .vNum 1 }]) "a").map
        (fun u => u.earned) = some (.vBool true) := by
  decide

/-- C2 amended: the `processGameData` earned chain consults `earned`,
`unlocked`, `achieved` in that order but by JS `||`, so the first field with
a truthy value wins, a present falsy field falls through, and a missing or
all-falsy entry yields false; `1` and `true` are both truthy there. The
array-save converter instead accepts exactly `achieved === 1` as earned. -/
theorem jsOr_truthy (a b : JSVal) (h : truthy a = true) : jsOr a b = a := by
  simp [jsOr, h]

theorem jsOr_falsy (a b : JSVal) (h : truthy a = false) : jsOr a b = b := by
  simp [jsOr, h]

theorem truthy_vBool (b : Bool) : truthy (.vBool b) = b := rfl

theorem C2_earned_normalization_amended (u : UserAch) (e : SaveArrayEntry) :
    truthy (normUnlocked u) = (truthy u.earned || truthy u.unlocked || truthy u.achieved)
    ∧ normUnlocked u = (if truthy u.earned then u.earned
        else if truthy u.unlocked then u.unlocked
        else if truthy u.achieved then u.achieved
        else .vBool false)
    ∧ (∀ s : String, e.apiname = .vStr s → s ≠ "" →
        objLookup (convertArraySave [e]) s
          = some { earned := .vBool (e.achieved = .vNum 1),
                   earned_time := jsOr e.unlocktime (.vNum 0) }) := by
  refine ⟨?_, ?_, ?_⟩
  · cases he : truthy u.earned <;> cases hu : truthy u.unlocked <;>
      cases ha : truthy u.achieved <;>
      simp [normUnlocked, jsOr_truthy, jsOr_falsy, truthy_vBool, he, hu, ha]
  · cases he : truthy u.earned <;> cases hu : truthy u.unlocked <;>
      cases ha : truthy u.achieved <;>
      simp [normUnlocked, jsOr_truthy, jsOr_falsy, truthy_vBool, he, hu, ha]
  · intro s hs hne
    simp [convertArraySave, hs, hne, objInsert, objLookup]

/-- Witness for the amended C2 at concrete inputs. -/
theorem C2_earned_normalization_amended_witness :
    truthy (normUnlocked userC2)
        = (truthy userC2.earned || truthy userC2.unlocked || truthy userC2.achieved)
    ∧ normUnlocked userC2 = (if truthy userC2.earned then userC2.earned
        else if truthy userC2.unlocked then userC2.unlocked
        else if truthy userC2.achieved then userC2.achieved
        else .vBool false)
    ∧ objLookup (convertArraySave [entryC2]) "a"
        = some { earned := .vBool (entryC2.achieved = .vNum 1),
                 earned_time := jsOr entryC2.unlocktime (.vNum 0) } := by
  have h := C2_earned_normalization_amended userC2 entryC2
  exact ⟨h.1, h.2.1, h.2.2 "a" rfl (by decide)⟩

/-- C3 counterexample: reconciliation copies the stored timestamp of a
locked owner achievement into `theirUnlockTime` ungated, and the comparison
renderer shows any positive `theirUnlockTime`; so a locked achievement does
expose a positive unlock time. -/
theorem C3_locked_achievement_exposes_unlock_time :
    truthy achC3.unlocked = false
    ∧ (compareAchievements gameC3 (some ownC3)).comparison.map
        (fun r => (r.status, r.theirUnlockTime, showsTheirTime r))
      = [("both-locked", .vNum 500, true)] := by
  decide

/-- C3 amended: only the single-profile detail renderer treats the
timestamp of a locked achievement as absent — `renderAchievement` emits the
unlock-time element only when `isUnlocked && ach.unlocktime` — while
roster construction and reconciliation records carry the stored timestamp
unchanged: `theirUnlockTime` is `achievement.unlocktime || 0` for every
record, whatever the unlocked state. -/
theorem C3_unlock_time_exposure_amended (g : Game) (own : OwnData) :
    ((g.achievements.filter (fun a => !truthy a.unlocked)).all
      (fun a => !showsUnlockTime a (truthy a.unlocked))) = true
    ∧ (compareAchievements g (some own)).comparison.map (fun r => r.theirUnlockTime)
      = (g.achievements.filter (fun a => !own.blacklist.contains a.apiname)).map
          (fun a => jsOr a.unlocktime (.vNum 0)) := by
  constructor
  · simp only [List.all_eq_true]
    intro a ha
    have hb : truthy a.unlocked = false := by
      have := (List.mem_filter.mp ha).2
      simpa using this
    simp [showsUnlockTime, hb]
  · rw [comparison_eq_filter_map, List.map_map]
    rfl

/-- C7: with a 10-achievement schema, 2 blacklisted keys, and 5 earned save
entries of which 1 is blacklisted, `processGameData` builds a roster of
exactly 8 achievements with 4 of them unlocked. -/
theorem C7_roster_construction_scenario :
    schemaC7.length = 10
    ∧ (infoC7.blacklist.getD []).length = 2
    ∧ saveC7.length = 5
    ∧ (saveC7.filter (fun p => truthy p.2.earned)).length = 5
    ∧ gameC7.achievements.length = 8
    ∧ gameUnlockedCount gameC7 = 4 := by
  decide

/-- The integer half-up rounding `exactRound` agrees with the exact
rational `round(100 * u / t)` of the specification, for every positive
total. -/
theorem exactRound_eq_round (u t : Nat) (ht : 0 < t) :
    (exactRound u t : ℤ) = round ((100 * (u : ℚ)) / (t : ℚ)) := by
  have ht2 : ((t : ℚ)) ≠ 0 := Nat.cast_ne_zero.mpr ht.ne'
  rw [round_eq]
  have h : (100 * (u : ℚ)) / (t : ℚ) + 1 / 2 = ((200 * u + t : ℕ) : ℚ) / ((2 * t : ℕ) : ℚ) := by
    push_cast
    field_simp
    ring
  rw [h]
  have h2 : (0 : ℚ) ≤ ((200 * u + t : ℕ) : ℚ) / ((2 * t : ℕ) : ℚ) := by positivity
  rw [← Int.natCast_floor_eq_floor h2, Nat.floor_div_eq_div]
  rfl

/-- C8 counterexample: at `u = 201`, `t = 200` the double-precision
evaluation `Math.round((201/200)*100)` yields 100 — the double nearest
1.005 lies below it, so the product rounds to a value below 100.5 — while
the exact `round(100*201/200) = round(100.5)` is 101; so `percentage(u, t)
= round(100*u/t)` does not hold for every positive total. -/
theorem C8_double_rounding_diverges :
    calculatePercentage 201 200 = 100
    ∧ round ((100 * (201 : ℚ)) / (200 : ℚ)) = 101 := by
  constructor
  · decide
  · have h := exactRound_eq_round 201 200 (by norm_num)
    have h2 : exactRound 201 200 = 101 := by decide
    rw [h2] at h
    exact_mod_cast h.symm

/-- C8 amended: `calculatePercentage` is total and never divides by zero
(the division is guarded behind `total > 0`), returns 0 whenever the total
is 0, and for a positive total returns `Math.round` of the binary64
evaluation of `(unlocked / total) * 100`. This agrees with the exact
`round(100 * u / t)` on the verified box of all `u, t ≤ 8` (which includes
the representable-tie case 1/8 rounding half-up to 13), but not for every
input: `percentage(201, 200) = 100` while `round(100 * 201 / 200) = 101`. -/
theorem C8_percentage_amended (u t : Nat) :
    calculatePercentage u 0 = 0
    ∧ (0 < t → (exactRound u t : ℤ) = round ((100 * (u : ℚ)) / (t : ℚ)))
    ∧ (∀ a : Nat, a < 9 → ∀ b : Nat, b < 9 → 0 < b →
        calculatePercentage a b = exactRound a b)
    ∧ calculatePercentage 201 200 = 100
    ∧ exactRound 201 200 = 101 := by
  exact ⟨rfl, fun ht => exactRound_eq_round u t ht, by decide, by decide, by decide⟩

/-- Witness for the amended C8 at concrete inputs. -/
theorem C8_percentage_amended_witness :
    calculatePercentage 3 0 = 0
    ∧ (exactRound 3 4 : ℤ) = round ((100 * ((3 : Nat) : ℚ)) / ((4 : Nat) : ℚ))
    ∧ calculatePercentage 3 4 = exactRound 3 4
    ∧ calculatePercentage 201 200 = 100 := by
  have h := C8_percentage_amended 3 4
  exact ⟨h.1, h.2.1 (by norm_num), h.2.2.1 3 (by norm_num) 4 (by norm_num) (by norm_num),
    h.2.2.2.1⟩

/-- C9 counterexample: the passport path (`checkPassport`) changes the
stored visitor identity from alice to bob but leaves the comparison cache
untouched, so the cache is not cleared in full on every identity-setting
path. -/
theorem C9_passport_does_not_clear_cache :
    (checkPassportStep stateC9 (some "bob")).storedUsername = some "bob"
    ∧ stateC9.storedUsername ≠ some "bob"
    ∧ (checkPassportStep stateC9 (some "bob")).comparisonCache = stateC9.comparisonCache
    ∧ stateC9.comparisonCache ≠ [] := by
  decide

/-- C9 amended: only a completed explicit selection
(`changeComparisonUser`) clears the comparison cache, and it clears it in
full; `checkPassport` never touches the cache. A stale entry of a previous
identity is nevertheless not served, because `loadOwnGameData` consults the
cache only under the key built from the current identity: its result is the
entry cached under that key, or the fetch outcome on a miss. -/
theorem C9_cache_amended (s : CompareState) (u a : String) (p : Option String)
    (fetched : Option OwnData) :
    (changeComparisonUserStep s (some u)).comparisonCache = []
    ∧ (checkPassportStep s p).comparisonCache = s.comparisonCache
    ∧ (s.storedUsername = some u →
        (loadOwnGameDataStep s a fetched).1
          = (objLookup s.comparisonCache (mkCacheKey u a)).getD fetched) := by
  refine ⟨rfl, ?_, ?_⟩
  · cases p with
    | none => rfl
    | some v =>
        by_cases hv : v = ""
        · simp [checkPassportStep, hv]
        · simp [checkPassportStep, hv]
  · intro hs
    simp only [loadOwnGameDataStep, hs]
    cases h : objLookup s.comparisonCache (mkCacheKey u a) <;> simp [h]

/-- Witness for the amended C9 at concrete state `stateC9`. -/
theorem C9_cache_amended_witness :
    (changeComparisonUserStep stateC9 (some "bob")).comparisonCache = []
    ∧ (checkPassportStep stateC9 (some "bob")).comparisonCache = stateC9.comparisonCache
    ∧ (loadOwnGameDataStep stateC9 "10" none).1
        = (objLookup stateC9.comparisonCache (mkCacheKey "alice" "10")).getD none := by
  have h := C9_cache_amended stateC9 "alice" "10" (some "bob") none
  exact ⟨(C9_cache_amended stateC9 "bob" "10" (some "bob") none).1, h.2.1, h.2.2 rfl⟩
